/-
Verification of the contact-form serverless function
(src/netlify/functions/send-contact-email.ts) against its specification.

Strings are shallowly embedded as `List Char`; JavaScript dynamic values as
the inductive `JSValue`; times (Date.now()) as natural-number milliseconds.
External collaborators (JSON.parse, the Resend provider, Date#toLocaleString)
are modelled as parameters of the handler, quantified in the theorems.
-/
import Mathlib

set_option linter.unusedVariables false
set_option maxRecDepth 4000

/-- Character lists stand in for JavaScript strings. -/
abbrev Str := List Char

/-- Literal helper: a Lean string literal as a character list. -/
def str (s : String) : Str := s.toList

/-- JavaScript whitespace test used by `trim` and the email regex class. -/
def wsChar (c : Char) : Bool := c.isWhitespace

/-- `String.prototype.trim`: drop whitespace from both ends. -/
def trimList (s : Str) : Str :=
  ((s.dropWhile wsChar).reverse.dropWhile wsChar).reverse

/-- `str.replace(/c/g, r)` for a single-character pattern `c`. -/
def replaceChar (s : Str) (c : Char) (r : Str) : Str :=
  s.flatMap (fun x => if x = c then r else [x])

/-- `sanitizeString` from the source: escape `&`, `<`, `>` in that order,
then trim. -/
def sanitizeString (s : Str) : Str :=
  trimList
    (replaceChar
      (replaceChar
        (replaceChar s '&' (str "&amp;"))
        '<' (str "&lt;"))
      '>' (str "&gt;"))

/-- `CONFIG.maxMessageLength`. -/
def maxMessageLength : Nat := 2000

/-- `CONFIG.rateLimitWindowMs` (one minute). -/
def rateLimitWindowMs : Nat := 60000

/-- `CONFIG.maxRequestsPerWindow`. -/
def maxRequestsPerWindow : Nat := 5

/-- An entry of the in-memory rate-limit table. -/
structure RateLimitEntry where
  count : Nat
  resetTime : Nat
  deriving DecidableEq, Repr

/-- The in-memory `rateLimitMap`. -/
def RateLimitMap := Str → Option RateLimitEntry

/-- `Map.prototype.set`. -/
def RateLimitMap.set (m : RateLimitMap) (k : Str) (e : RateLimitEntry) :
    RateLimitMap :=
  fun k' => if k' = k then some e else m k'

/-- `checkRateLimit` from the source, with the mutable map and clock made
explicit: returns the boolean result together with the updated map. -/
def checkRateLimit (m : RateLimitMap) (now : Nat) (clientIP : Str) :
    Bool × RateLimitMap :=
  match m clientIP with
  | none => (true, m.set clientIP ⟨1, now + rateLimitWindowMs⟩)
  | some clientData =>
    if now > clientData.resetTime then
      (true, m.set clientIP ⟨1, now + rateLimitWindowMs⟩)
    else if clientData.count ≥ maxRequestsPerWindow then
      (false, m)
    else
      (true, m.set clientIP ⟨clientData.count + 1, clientData.resetTime⟩)

/-- A JavaScript runtime value, as produced by `JSON.parse` (plus
`undefined`, which property reads on objects can yield).  Numbers are
modelled as integers; the claims never exercise fractional values. -/
inductive JSValue where
  | null
  | undefined
  | bool (b : Bool)
  | num (n : Int)
  | jstr (s : Str)
  | arr (xs : List JSValue)
  | obj (fields : List (String × JSValue))
  deriving Repr

/-- The only JavaScript exception the modelled code can raise: a
`TypeError` from a property read on `null`/`undefined` or from calling a
string method on a non-string. -/
inductive JSError where
  | typeError
  deriving DecidableEq, Repr

/-- JavaScript truthiness. -/
def truthy : JSValue → Bool
  | .null => false
  | .undefined => false
  | .bool b => b
  | .num n => n ≠ 0
  | .jstr s => s ≠ []
  | .arr _ => true
  | .obj _ => true

/-- Field lookup in an object literal (first binding wins). -/
def lookupField (fs : List (String × JSValue)) (k : String) : JSValue :=
  (fs.lookup k).getD .undefined

/-- JavaScript property read `v[k]`.  Throws on `null`/`undefined`;
yields `undefined` for absent properties; `length` is special on strings
and arrays. -/
def getField : JSValue → String → Except JSError JSValue
  | .null, _ => .error .typeError
  | .undefined, _ => .error .typeError
  | .obj fs, k => .ok (lookupField fs k)
  | .arr xs, k => .ok (if k = "length" then .num xs.length else .undefined)
  | .jstr s, k => .ok (if k = "length" then .num s.length else .undefined)
  | .bool _, _ => .ok .undefined
  | .num _, _ => .ok .undefined

/-- `typeof v === 'string'`. -/
def isStrVal : JSValue → Bool
  | .jstr _ => true
  | _ => false

/-- The character class `[^\s@]` of the email regex. -/
def emailCharOk (c : Char) : Bool := !wsChar c && c ≠ '@'

/-- `isValidEmail` from the source: the regex
`[^\s@]+@[^\s@]+\.[^\s@]+` anchored at both ends.  The part before the
first `@` is `takeWhile`; the regex then requires the remainder to start
with `@` and continue with a `.`-containing, `@`-free, space-free tail
whose dot is neither its first nor its last character. -/
def isValidEmail (s : Str) : Bool :=
  let a := s.takeWhile (fun c => c ≠ '@')
  match s.dropWhile (fun c => c ≠ '@') with
  | '@' :: d =>
      decide (a ≠ []) && a.all emailCharOk && d.all emailCharOk &&
        ((d.drop 1).dropLast.contains '.')
  | _ => false

/-- Result record of the validator. -/
structure ValidationResult where
  isValid : Bool
  errors : List Str
  deriving DecidableEq, Repr

/-- Error strings pushed by the validator. -/
def nameErrStr : Str := str "Name is required and must be at least 2 characters"

/-- Error string for a bad email. -/
def emailErrStr : Str := str "Valid email address is required"

/-- Error string for a missing/short message. -/
def messageErrStr : Str :=
  str "Message is required and must be at least 10 characters"

/-- Error string for an over-long message (the source interpolates
`CONFIG.maxMessageLength = 2000`). -/
def lengthErrStr : Str := str "Message must be less than 2000 characters"

/-- `!v || typeof v !== 'string' || v.trim().length < k`. -/
def failsTrimCheck (v : JSValue) (k : Nat) : Bool :=
  !truthy v || !isStrVal v ||
    (match v with | .jstr s => decide ((trimList s).length < k) | _ => false)

/-- `!v || typeof v !== 'string' || !isValidEmail(v)`. -/
def failsEmailCheck (v : JSValue) : Bool :=
  !truthy v || !isStrVal v ||
    (match v with | .jstr s => !isValidEmail s | _ => false)

/-- The value of `v.length` as read by the length check (never evaluated
on `null`/`undefined` because the check is guarded by truthiness). -/
def jsLengthVal : JSValue → JSValue
  | .jstr s => .num s.length
  | .arr xs => .num xs.length
  | .obj fs => lookupField fs "length"
  | _ => .undefined

/-- `v && v.length > 2000`.  The `>` comparison is modelled for numeric
`length` values; a non-numeric `length` compares false (JavaScript's
ToNumber coercion of other value shapes is not exercised by the claims). -/
def failsLengthCheck (v : JSValue) : Bool :=
  truthy v &&
    (match jsLengthVal v with
     | .num n => decide (n > (maxMessageLength : Int))
     | _ => false)

/-- `validateContactData` from the source.  All four checks read
properties of `data`, so a `null`/`undefined` payload raises a
`TypeError` (propagated as `.error`); otherwise every check runs and the
errors are collected in order. -/
def validateContactData (data : JSValue) : Except JSError ValidationResult := do
  let name ← getField data "name"
  let email ← getField data "email"
  let message ← getField data "message"
  let errors : List Str :=
    (if failsTrimCheck name 2 then [nameErrStr] else []) ++
    (if failsEmailCheck email then [emailErrStr] else []) ++
    (if failsTrimCheck message 10 then [messageErrStr] else []) ++
    (if failsLengthCheck message then [lengthErrStr] else [])
  return ⟨decide (errors.length = 0), errors⟩
/-- Chunk 0 of htmlT0. -/
def htmlT0c0 : Str := str "\n<!doctype html>\n<html lang=\"en\">\n  <head>\n    <meta http-equiv=\"Content-Type\" content=\"text/html; c"

/-- Chunk 1 of htmlT0. -/
def htmlT0c1 : Str := str "harset=utf-8\" />\n    <meta name=\"viewport\" content=\"width=device-width, initial-scale=1\" />\n    <tit"

/-- Chunk 2 of htmlT0. -/
def htmlT0c2 : Str := str "le>"

/-- HTML template piece of createEmailContent (concatenation of its chunks). -/
def htmlT0 : Str :=
  htmlT0c0 ++ htmlT0c1 ++ htmlT0c2

/-- Chunk 0 of htmlT1. -/
def htmlT1c0 : Str := str "</title>\n  </head>\n  <body style=\"margin:0; padding:0; background-color:#f4f5f7;\">\n    <table role=\""

/-- Chunk 1 of htmlT1. -/
def htmlT1c1 : Str := str "presentation\" cellspacing=\"0\" cellpadding=\"0\" border=\"0\" width=\"100%\" style=\"background-color:#f4f5f"

/-- Chunk 2 of htmlT1. -/
def htmlT1c2 : Str := str "7;\">\n      <tr>\n        <td align=\"center\" style=\"padding:24px 16px;\">\n          <table role=\"presen"

/-- Chunk 3 of htmlT1. -/
def htmlT1c3 : Str := str "tation\" cellspacing=\"0\" cellpadding=\"0\" border=\"0\" width=\"100%\" style=\"max-width:600px; background-c"

/-- Chunk 4 of htmlT1. -/
def htmlT1c4 : Str := str "olor:#ffffff; border-radius:8px; overflow:hidden; box-shadow:0 1px 3px rgba(16,24,40,0.1);\">\n       "

/-- Chunk 5 of htmlT1. -/
def htmlT1c5 : Str := str "     <tr>\n              <td style=\"padding:24px 24px 0 24px;\">\n                <h1 style=\"margin:0; "

/-- Chunk 6 of htmlT1. -/
def htmlT1c6 : Str := str "font-family: -apple-system, BlinkMacSystemFont, \x27Segoe UI\x27, Roboto, Helvetica, Arial, \x27Apple Color E"

/-- Chunk 7 of htmlT1. -/
def htmlT1c7 : Str := str "moji\x27, \x27Segoe UI Emoji\x27; font-size:20px; line-height:28px; color:#111827;\">New contact form submissi"

/-- Chunk 8 of htmlT1. -/
def htmlT1c8 : Str := str "on</h1>\n                <p style=\"margin:8px 0 0 0; font-family: -apple-system, BlinkMacSystemFont, "

/-- Chunk 9 of htmlT1. -/
def htmlT1c9 : Str := str "\x27Segoe UI\x27, Roboto, Helvetica, Arial; font-size:14px; line-height:20px; color:#6b7280;\">You received"

/-- Chunk 10 of htmlT1. -/
def htmlT1c10 : Str := str " a new message from your website.</p>\n              </td>\n            </tr>\n            <tr>\n       "

/-- Chunk 11 of htmlT1. -/
def htmlT1c11 : Str := str "       <td style=\"padding:16px 24px 0 24px;\">\n                <table role=\"presentation\" cellspacing"

/-- Chunk 12 of htmlT1. -/
def htmlT1c12 : Str := str "=\"0\" cellpadding=\"0\" border=\"0\" width=\"100%\" style=\"background-color:#f9fafb; border:1px solid #e5e7"

/-- Chunk 13 of htmlT1. -/
def htmlT1c13 : Str := str "eb; border-radius:8px;\">\n                  <tr>\n                    <td style=\"padding:16px 16px 0 1"

/-- Chunk 14 of htmlT1. -/
def htmlT1c14 : Str := str "6px;\">\n                      <p style=\"margin:0 0 8px 0; font-family: -apple-system, BlinkMacSystemF"

/-- Chunk 15 of htmlT1. -/
def htmlT1c15 : Str := str "ont, \x27Segoe UI\x27, Roboto, Helvetica, Arial; font-size:14px; line-height:20px; color:#111827;\"><strong"

/-- Chunk 16 of htmlT1. -/
def htmlT1c16 : Str := str " style=\"color:#111827;\">Name:</strong> "

/-- HTML template piece of createEmailContent (concatenation of its chunks). -/
def htmlT1 : Str :=
  htmlT1c0 ++ htmlT1c1 ++ htmlT1c2 ++ htmlT1c3 ++ htmlT1c4 ++ htmlT1c5 ++ htmlT1c6 ++ htmlT1c7 ++ htmlT1c8 ++ htmlT1c9 ++ htmlT1c10 ++ htmlT1c11 ++ htmlT1c12 ++ htmlT1c13 ++ htmlT1c14 ++ htmlT1c15 ++ htmlT1c16

/-- Chunk 0 of htmlT2. -/
def htmlT2c0 : Str := str "</p>\n                      <p style=\"margin:0 0 8px 0; font-family: -apple-system, BlinkMacSystemFon"

/-- Chunk 1 of htmlT2. -/
def htmlT2c1 : Str := str "t, \x27Segoe UI\x27, Roboto, Helvetica, Arial; font-size:14px; line-height:20px; color:#111827;\"><strong s"

/-- Chunk 2 of htmlT2. -/
def htmlT2c2 : Str := str "tyle=\"color:#111827;\">Email:</strong> "

/-- HTML template piece of createEmailContent (concatenation of its chunks). -/
def htmlT2 : Str :=
  htmlT2c0 ++ htmlT2c1 ++ htmlT2c2

/-- HTML template piece of createEmailContent. -/
def htmlT3 : Str := str "</p>\n                      "

/-- HTML template piece of createEmailContent. -/
def htmlT4 : Str := str "\n                      "

/-- Chunk 0 of htmlT5. -/
def htmlT5c0 : Str := str "\n                    </td>\n                  </tr>\n                  <tr>\n                    <td st"

/-- Chunk 1 of htmlT5. -/
def htmlT5c1 : Str := str "yle=\"padding:0 16px 16px 16px;\">\n                      <p style=\"margin:8px 0 8px 0; font-family: -a"

/-- Chunk 2 of htmlT5. -/
def htmlT5c2 : Str := str "pple-system, BlinkMacSystemFont, \x27Segoe UI\x27, Roboto, Helvetica, Arial; font-size:14px; line-height:2"

/-- Chunk 3 of htmlT5. -/
def htmlT5c3 : Str := str "0px; color:#111827;\"><strong style=\"color:#111827;\">Subject:</strong> "

/-- HTML template piece of createEmailContent (concatenation of its chunks). -/
def htmlT5 : Str :=
  htmlT5c0 ++ htmlT5c1 ++ htmlT5c2 ++ htmlT5c3

/-- Chunk 0 of htmlT6. -/
def htmlT6c0 : Str := str "</p>\n                    </td>\n                  </tr>\n                </table>\n              </td>\n"

/-- Chunk 1 of htmlT6. -/
def htmlT6c1 : Str := str "            </tr>\n            <tr>\n              <td style=\"padding:16px 24px 24px 24px;\">\n         "

/-- Chunk 2 of htmlT6. -/
def htmlT6c2 : Str := str "       <table role=\"presentation\" cellspacing=\"0\" cellpadding=\"0\" border=\"0\" width=\"100%\" style=\"bor"

/-- Chunk 3 of htmlT6. -/
def htmlT6c3 : Str := str "der:1px solid #e5e7eb; border-radius:8px;\">\n                  <tr>\n                    <td style=\"pa"

/-- Chunk 4 of htmlT6. -/
def htmlT6c4 : Str := str "dding:12px 16px; background-color:#f9fafb; border-bottom:1px solid #e5e7eb;\">\n                      "

/-- Chunk 5 of htmlT6. -/
def htmlT6c5 : Str := str "<p style=\"margin:0; font-family: -apple-system, BlinkMacSystemFont, \x27Segoe UI\x27, Roboto, Helvetica, A"

/-- Chunk 6 of htmlT6. -/
def htmlT6c6 : Str := str "rial; font-weight:600; font-size:14px; line-height:20px; color:#111827;\">Message</p>\n               "

/-- Chunk 7 of htmlT6. -/
def htmlT6c7 : Str := str "     </td>\n                  </tr>\n                  <tr>\n                    <td style=\"padding:16p"

/-- Chunk 8 of htmlT6. -/
def htmlT6c8 : Str := str "x; background-color:#ffffff;\">\n                      <div style=\"font-family: -apple-system, BlinkMa"

/-- Chunk 9 of htmlT6. -/
def htmlT6c9 : Str := str "cSystemFont, \x27Segoe UI\x27, Roboto, Helvetica, Arial; font-size:14px; line-height:22px; color:#111827; "

/-- Chunk 10 of htmlT6. -/
def htmlT6c10 : Str := str "white-space:pre-wrap;\">"

/-- HTML template piece of createEmailContent (concatenation of its chunks). -/
def htmlT6 : Str :=
  htmlT6c0 ++ htmlT6c1 ++ htmlT6c2 ++ htmlT6c3 ++ htmlT6c4 ++ htmlT6c5 ++ htmlT6c6 ++ htmlT6c7 ++ htmlT6c8 ++ htmlT6c9 ++ htmlT6c10

/-- Chunk 0 of htmlT7. -/
def htmlT7c0 : Str := str "</div>\n                    </td>\n                  </tr>\n                </table>\n                <p"

/-- Chunk 1 of htmlT7. -/
def htmlT7c1 : Str := str " style=\"margin:16px 0 0 0; font-family: -apple-system, BlinkMacSystemFont, \x27Segoe UI\x27, Roboto, Helve"

/-- Chunk 2 of htmlT7. -/
def htmlT7c2 : Str := str "tica, Arial; font-size:12px; line-height:18px; color:#6b7280;\">Sent on "

/-- HTML template piece of createEmailContent (concatenation of its chunks). -/
def htmlT7 : Str :=
  htmlT7c0 ++ htmlT7c1 ++ htmlT7c2

/-- Chunk 0 of htmlT8. -/
def htmlT8c0 : Str := str "</p>\n              </td>\n            </tr>\n          </table>\n        </td>\n      </tr>\n    </table>"

/-- Chunk 1 of htmlT8. -/
def htmlT8c1 : Str := str "\n  </body>\n  </html>"

/-- HTML template piece of createEmailContent (concatenation of its chunks). -/
def htmlT8 : Str :=
  htmlT8c0 ++ htmlT8c1

/-- Chunk 0 of phonePreHtml. -/
def phonePreHtmlc0 : Str := str "<p style=\"margin:0 0 8px 0; font-family: -apple-system, BlinkMacSystemFont, \x27Segoe UI\x27, Roboto, Helv"

/-- Chunk 1 of phonePreHtml. -/
def phonePreHtmlc1 : Str := str "etica, Arial; font-size:14px; line-height:20px; color:#111827;\"><strong style=\"color:#111827;\">Phone"

/-- Chunk 2 of phonePreHtml. -/
def phonePreHtmlc2 : Str := str ":</strong> "

/-- HTML template piece of createEmailContent (concatenation of its chunks). -/
def phonePreHtml : Str :=
  phonePreHtmlc0 ++ phonePreHtmlc1 ++ phonePreHtmlc2

/-- HTML template piece of createEmailContent. -/
def phonePostHtml : Str := str "</p>"

/-- Chunk 0 of companyPreHtml. -/
def companyPreHtmlc0 : Str := str "<p style=\"margin:0 0 8px 0; font-family: -apple-system, BlinkMacSystemFont, \x27Segoe UI\x27, Roboto, Helv"

/-- Chunk 1 of companyPreHtml. -/
def companyPreHtmlc1 : Str := str "etica, Arial; font-size:14px; line-height:20px; color:#111827;\"><strong style=\"color:#111827;\">Compa"

/-- Chunk 2 of companyPreHtml. -/
def companyPreHtmlc2 : Str := str "ny:</strong> "

/-- HTML template piece of createEmailContent (concatenation of its chunks). -/
def companyPreHtml : Str :=
  companyPreHtmlc0 ++ companyPreHtmlc1 ++ companyPreHtmlc2

/-- HTML template piece of createEmailContent. -/
def companyPostHtml : Str := str "</p>"

/-- Subject prefix when a subject was supplied. -/
def subjPrefix : Str := str "Contact form: "

/-- Subject prefix when no subject was supplied. -/
def noSubjPrefix : Str := str "New contact from "

/-- Default subject used in the bodies when none was supplied. -/
def defaultSubject : Str := str "Contact form submission"

/-- Text-body template piece. -/
def textT0 : Str := str "New contact form submission\n\nName: "

/-- Text-body template piece. -/
def textT1 : Str := str "\nEmail: "

/-- Text-body template piece. -/
def textT2 : Str := str "\n"

/-- Text-body phone line prefix. -/
def phonePreText : Str := str "Phone: "

/-- Text-body company line prefix. -/
def companyPreText : Str := str "Company: "

/-- Newline terminating an optional text line. -/
def optPostText : Str := str "\n"

/-- Text-body template piece. -/
def textT3 : Str := str "Subject: "

/-- Text-body template piece. -/
def textT4 : Str := str "\n\nMessage:\n"

/-- Text-body template piece. -/
def textT5 : Str := str "\n\nSent on: "

/-- The `ContactFormData` interface: required `name`/`email`/`message`,
optional `subject`/`phone`/`company`. -/
structure ContactFormData where
  name : Str
  email : Str
  subject : Option Str
  message : Str
  phone : Option Str
  company : Option Str
  deriving DecidableEq, Repr

/-- Truthiness of an optional string field (`undefined` and `''` are
falsy). -/
def presentStr : Option Str → Bool
  | some s => s ≠ []
  | none => false

/-- Value of an optional field, for use under a `presentStr` guard. -/
def optVal (o : Option Str) : Str := o.getD []

/-- The rendered email. -/
structure RenderedEmail where
  subject : Str
  html : Str
  text : Str
  deriving DecidableEq, Repr

/-- The conditional phone fragment of the HTML body. -/
def phoneSegHtml (d : ContactFormData) : Str :=
  if presentStr d.phone then
    phonePreHtml ++ sanitizeString (optVal d.phone) ++ phonePostHtml
  else []

/-- The conditional company fragment of the HTML body. -/
def companySegHtml (d : ContactFormData) : Str :=
  if presentStr d.company then
    companyPreHtml ++ sanitizeString (optVal d.company) ++ companyPostHtml
  else []

/-- The `subject` local of `createEmailContent`. -/
def emailSubjectOf (d : ContactFormData) : Str :=
  if presentStr d.subject then subjPrefix ++ sanitizeString (optVal d.subject)
  else noSubjPrefix ++ sanitizeString d.name

/-- The `html` local of `createEmailContent`. -/
def emailHtmlOf (d : ContactFormData) (nowStr : Str) : Str :=
  htmlT0 ++ emailSubjectOf d ++ htmlT1 ++ sanitizeString d.name ++ htmlT2 ++
  sanitizeString d.email ++ htmlT3 ++ phoneSegHtml d ++ htmlT4 ++
  companySegHtml d ++ htmlT5 ++
  (if presentStr d.subject then sanitizeString (optVal d.subject)
   else defaultSubject) ++
  htmlT6 ++ sanitizeString d.message ++ htmlT7 ++ nowStr ++ htmlT8

/-- The `text` local of `createEmailContent`. -/
def emailTextOf (d : ContactFormData) (nowStr : Str) : Str :=
  textT0 ++ d.name ++ textT1 ++ d.email ++ textT2 ++
  (if presentStr d.phone then phonePreText ++ optVal d.phone ++ optPostText
   else []) ++
  (if presentStr d.company then
    companyPreText ++ optVal d.company ++ optPostText
   else []) ++
  textT3 ++
  (if presentStr d.subject then optVal d.subject else defaultSubject) ++
  textT4 ++ d.message ++ textT5 ++ nowStr

/-- `createEmailContent` from the source, on its declared
`ContactFormData` argument type, with the `new Date().toLocaleString()`
timestamp supplied as the explicit argument `nowStr`. -/
def createEmailContent (d : ContactFormData) (nowStr : Str) : RenderedEmail :=
  ⟨emailSubjectOf d, emailHtmlOf d nowStr, emailTextOf d nowStr⟩

/-- The dynamic field reads `createEmailContent` performs on the payload
object the handler casts to `ContactFormData`.  A truthy non-string in
any rendered field makes `sanitizeString` (a string method) throw; falsy
non-strings are skipped by the conditionals, so they behave as absent. -/
def readRenderField (data : JSValue) (k : String) :
    Except JSError (Option Str) := do
  let v ← getField data k
  match v with
  | .jstr s => return some s
  | _ => if truthy v then throw .typeError else return none

/-- Extraction of the payload fields exactly as `createEmailContent`'s
property reads and `sanitizeString` calls observe them. -/
def toContactFormData (data : JSValue) : Except JSError ContactFormData := do
  let name ← readRenderField data "name"
  let email ← readRenderField data "email"
  let subject ← readRenderField data "subject"
  let message ← readRenderField data "message"
  let phone ← readRenderField data "phone"
  let company ← readRenderField data "company"
  match name, email, message with
  | some n, some e, some m =>
      return ⟨n, e, subject, m, phone, company⟩
  | _, _, _ => throw .typeError
/-- `errors.join(', ')`. -/
def joinComma : List Str → Str
  | [] => []
  | [x] => x
  | x :: xs => x ++ str ", " ++ joinComma xs

/-- The request headers the handler reads (Netlify lower-cases header
names); a missing header is `none`. -/
structure RequestHeaders where
  origin : Option Str
  clientIp : Option Str
  xForwardedFor : Option Str
  deriving Repr

/-- The `HandlerEvent` fields the handler reads. -/
structure HandlerEvent where
  httpMethod : Str
  headers : RequestHeaders
  body : Option Str
  deriving Repr

/-- JavaScript `a || b` on an optional string (`undefined` and `''` are
falsy). -/
def jsOrStr (a : Option Str) (b : Str) : Str :=
  match a with
  | none => b
  | some s => if s = [] then b else s

/-- The environment-sourced configuration the handler consults. -/
structure Config where
  allowedOrigins : List Str
  recipientEmail : Str
  fromEmail : Str
  fromName : Str
  deriving Repr

/-- The `Access-Control-Allow-Origin` value computed at the top of the
handler: echo `event.headers.origin || ''` when the configured allow-list
is non-empty and contains it, `'null'` when it does not, `'*'` when no
allow-list is configured. -/
def corsValue (allowedOrigins : List Str) (origin : Option Str) : Str :=
  if allowedOrigins.length > 0 then
    if allowedOrigins.contains (jsOrStr origin []) then jsOrStr origin []
    else str "null"
  else str "*"

/-- The four response headers attached to every response. -/
structure CorsHeaders where
  accessControlAllowOrigin : Str
  accessControlAllowHeaders : Str
  accessControlAllowMethods : Str
  contentType : Str
  deriving DecidableEq, Repr

/-- `corsHeaders` from the source. -/
def corsHeadersOf (cfg : Config) (ev : HandlerEvent) : CorsHeaders where
  accessControlAllowOrigin := corsValue cfg.allowedOrigins ev.headers.origin
  accessControlAllowHeaders := str "Content-Type, Authorization"
  accessControlAllowMethods := str "POST, OPTIONS"
  contentType := str "application/json"

/-- A response body before `JSON.stringify`: either the bare preflight
message object or an `ApiResponse` record. -/
inductive RespBody where
  | msg (message : Str)
  | api (success : Bool) (message : Str) (error : Option Str)
  deriving DecidableEq, Repr

/-- The call made to `resend.emails.send`. -/
structure SendRequest where
  fromAddr : Str
  toAddr : Str
  subject : Str
  html : Str
  text : Str
  replyTo : Str
  deriving DecidableEq, Repr

/-- Possible behaviours of the external provider call: the promise
rejects (exception), resolves with an error object, or succeeds. -/
inductive SendOutcome where
  | throws
  | errResult
  | ok
  deriving DecidableEq, Repr

/-- The handler's full observable outcome: the HTTP response plus the
rate-limit table afterwards and the provider call, if one was made. -/
structure HandlerOutcome where
  statusCode : Nat
  headers : CorsHeaders
  body : RespBody
  rateMap : RateLimitMap
  sent : Option SendRequest

/-- `event.body || '{}'`. -/
def bodyOrDefault (b : Option Str) : Str := jsOrStr b (str "\x7b\x7d")

/-- The client key: `event.headers['client-ip'] ||
event.headers['x-forwarded-for'] || 'unknown'`. -/
def clientIPOf (ev : HandlerEvent) : Str :=
  jsOrStr ev.headers.clientIp (jsOrStr ev.headers.xForwardedFor (str "unknown"))

/-- `from` field of the provider call:
`CONFIG.fromName ? `${fromName} <${fromEmail}>` : fromEmail`. -/
def fromFieldOf (cfg : Config) : Str :=
  if cfg.fromName ≠ [] then
    cfg.fromName ++ str " <" ++ cfg.fromEmail ++ str ">"
  else cfg.fromEmail

/-- `handler` from the source.  The mutable rate-limit table, the clock,
`JSON.parse`, the formatted timestamp, and the provider's behaviour are
explicit parameters; every JavaScript exception raised inside the `try`
block (modelled as `Except.error`) lands in the catch-all 500 branch. -/
def handler (cfg : Config) (ev : HandlerEvent) (m : RateLimitMap) (now : Nat)
    (parse : Str → Except Unit JSValue) (nowStr : Str)
    (sendOut : SendOutcome) : HandlerOutcome :=
  let cors := corsHeadersOf cfg ev
  if ev.httpMethod = str "OPTIONS" then
    ⟨200, cors, .msg (str "CORS preflight successful"), m, none⟩
  else if ev.httpMethod ≠ str "POST" then
    ⟨405, cors, .api false (str "Method not allowed. Use POST.") none, m, none⟩
  else
    match checkRateLimit m now (clientIPOf ev) with
    | (false, m') =>
      ⟨429, cors,
        .api false (str "Too many requests. Please try again later.") none,
        m', none⟩
    | (true, m') =>
      match parse (bodyOrDefault ev.body) with
      | .error _ =>
        ⟨400, cors, .api false (str "Invalid JSON in request body") none,
          m', none⟩
      | .ok contactData =>
        match validateContactData contactData with
        | .error _ =>
          ⟨500, cors,
            .api false
              (str "An unexpected error occurred. Please try again.") none,
            m', none⟩
        | .ok validation =>
          if validation.isValid = false then
            ⟨400, cors,
              .api false (str "Validation failed")
                (some (joinComma validation.errors)),
              m', none⟩
          else
            match toContactFormData contactData with
            | .error _ =>
              ⟨500, cors,
                .api false
                  (str "An unexpected error occurred. Please try again.")
                  none,
                m', none⟩
            | .ok cd =>
              let emailContent := createEmailContent cd nowStr
              let req : SendRequest :=
                ⟨fromFieldOf cfg, cfg.recipientEmail, emailContent.subject,
                  emailContent.html, emailContent.text, cd.email⟩
              match sendOut with
              | .throws =>
                ⟨500, cors,
                  .api false
                    (str "An unexpected error occurred. Please try again.")
                    none,
                  m', some req⟩
              | .errResult =>
                ⟨500, cors,
                  .api false (str "Failed to send email. Please try again.")
                    none,
                  m', some req⟩
              | .ok =>
                ⟨200, cors, .api true (str "Message sent successfully!") none,
                  m', some req⟩
/-- The email pattern as the specification words it: one-or-more
non-space-non-`@` characters, `@`, one-or-more, `.`, one-or-more. -/
def emailPatternSpec (s : Str) : Prop :=
  ∃ a b c : Str,
    s = a ++ '@' :: (b ++ '.' :: c) ∧ a ≠ [] ∧ b ≠ [] ∧ c ≠ [] ∧
    (∀ x ∈ a, emailCharOk x) ∧ (∀ x ∈ b, emailCharOk x) ∧
    (∀ x ∈ c, emailCharOk x)

/-- Spec-side rule for `name`: present, string, trimmed length at least 2. -/
def specNameOk (v : JSValue) : Prop :=
  ∃ s, v = .jstr s ∧ 2 ≤ (trimList s).length

/-- Spec-side rule for `email`: present, string, matches the pattern. -/
def specEmailOk (v : JSValue) : Prop :=
  ∃ s, v = .jstr s ∧ emailPatternSpec s

/-- Spec-side rule for `message`: present, string, trimmed length at
least 10, raw length at most 2000. -/
def specMessageOk (v : JSValue) : Prop :=
  ∃ s, v = .jstr s ∧ 10 ≤ (trimList s).length ∧ s.length ≤ maxMessageLength

/-- Concrete rate-limit maps used in witness instantiations. -/
def wMap0 : RateLimitMap := fun _ => none

/-- State after one allowed call at time 0. -/
def wMap1 : RateLimitMap := wMap0.set (str "k") ⟨1, 60000⟩

/-- State after two allowed calls. -/
def wMap2 : RateLimitMap := wMap1.set (str "k") ⟨2, 60000⟩

/-- State after three allowed calls. -/
def wMap3 : RateLimitMap := wMap2.set (str "k") ⟨3, 60000⟩

/-- State after four allowed calls. -/
def wMap4 : RateLimitMap := wMap3.set (str "k") ⟨4, 60000⟩

/-- State after five allowed calls. -/
def wMap5 : RateLimitMap := wMap4.set (str "k") ⟨5, 60000⟩

/-- State after the first call of the next window. -/
def wMap7 : RateLimitMap := wMap5.set (str "k") ⟨1, 120001⟩

/-- The error list `validateContactData` accumulates for an object
payload with fields `fs`. -/
def valErrors (fs : List (String × JSValue)) : List Str :=
  (if failsTrimCheck (lookupField fs "name") 2 then [nameErrStr] else []) ++
  (if failsEmailCheck (lookupField fs "email") then [emailErrStr] else []) ++
  (if failsTrimCheck (lookupField fs "message") 10 then [messageErrStr]
   else []) ++
  (if failsLengthCheck (lookupField fs "message") then [lengthErrStr] else [])

/-- The `message` field common to both response body shapes. -/
def respMessage : RespBody → Str
  | .msg m => m
  | .api _ m _ => m

/-- Concrete configuration for witness instantiations. -/
def wCfg : Config := ⟨[], str "r@x.co", str "f@x.co", str "N"⟩

/-- Concrete headers for witness instantiations. -/
def wHeaders : RequestHeaders := ⟨none, some (str "k"), none⟩

/-- Concrete event with the given method and no body. -/
def wEvent (method : String) : HandlerEvent := ⟨str method, wHeaders, none⟩

/-- A parse oracle that always fails. -/
def wParseFail : Str → Except Unit JSValue := fun _ => .error ()

/-- A parse oracle returning the empty object. -/
def wParseEmptyObj : Str → Except Unit JSValue := fun _ => .ok (.obj [])

/-- A concrete well-formed submission payload. -/
def wGoodPayload : JSValue :=
  .obj [("name", .jstr (str "Jane Doe")),
    ("email", .jstr (str "jane@example.com")),
    ("message", .jstr (str "Hello, I would like to get in touch."))]

/-- A parse oracle returning the well-formed payload. -/
def wParseGood : Str → Except Unit JSValue := fun _ => .ok wGoodPayload

/-- Safety of a segment for a pattern: the pattern occurs nowhere inside
the segment and no non-trivial prefix of the pattern is a suffix of the
segment, so no occurrence can begin inside it. -/
abbrev pSafe (p s : Str) : Prop :=
  ¬ p <:+: s ∧ ∀ i, i < p.length → 0 < i → ¬ (p.take i <:+ s)

-- ## Helper lemmas

theorem RateLimitMap.get_set (m : RateLimitMap) (k : Str) (e : RateLimitEntry) :
    m.set k e k = some e := by
  simp [RateLimitMap.set]

theorem checkRateLimit_none (m : RateLimitMap) (now : Nat) (k : Str)
    (h : m k = none) :
    checkRateLimit m now k = (true, m.set k ⟨1, now + rateLimitWindowMs⟩) := by
  unfold checkRateLimit
  rw [h]

theorem checkRateLimit_expired (m : RateLimitMap) (now : Nat) (k : Str)
    (e : RateLimitEntry) (h : m k = some e) (ht : now > e.resetTime) :
    checkRateLimit m now k = (true, m.set k ⟨1, now + rateLimitWindowMs⟩) := by
  unfold checkRateLimit
  rw [h]
  simp [ht]

theorem checkRateLimit_full (m : RateLimitMap) (now : Nat) (k : Str)
    (e : RateLimitEntry) (h : m k = some e) (ht : ¬ now > e.resetTime)
    (hc : e.count ≥ maxRequestsPerWindow) :
    checkRateLimit m now k = (false, m) := by
  unfold checkRateLimit
  rw [h]
  simp [ht, hc]

theorem checkRateLimit_incr (m : RateLimitMap) (now : Nat) (k : Str)
    (e : RateLimitEntry) (h : m k = some e) (ht : ¬ now > e.resetTime)
    (hc : ¬ e.count ≥ maxRequestsPerWindow) :
    checkRateLimit m now k = (true, m.set k ⟨e.count + 1, e.resetTime⟩) := by
  unfold checkRateLimit
  rw [h]
  simp [ht, hc]
theorem dropWhile_fix_of_prefix {p : Char → Bool} {l l' : Str}
    (h : l.dropWhile p = l) (hp : l' <+: l) : l'.dropWhile p = l' := by
  cases l' with
  | nil => simp
  | cons a t =>
    cases l with
    | nil => simp at hp
    | cons b u =>
      obtain ⟨hab, -⟩ := List.cons_prefix_cons.mp hp
      subst hab
      have hb : ¬ p a = true := by
        intro hpa
        rw [List.dropWhile_cons, if_pos hpa] at h
        have := congrArg List.length h
        have hle := (List.dropWhile_suffix (l := u) p).length_le
        simp at this
        omega
      rw [List.dropWhile_cons, if_neg hb]

theorem isPrefix_trimR (p : Char → Bool) (l : Str) :
    (l.reverse.dropWhile p).reverse <+: l := by
  have h := List.dropWhile_suffix (l := l.reverse) p
  have := List.reverse_prefix.mpr h
  rwa [List.reverse_reverse] at this

theorem trimList_dropWhile_fix (s : Str) :
    (trimList s).dropWhile wsChar = trimList s := by
  unfold trimList
  exact dropWhile_fix_of_prefix (List.dropWhile_idempotent wsChar s)
    (isPrefix_trimR wsChar (s.dropWhile wsChar))

theorem trimList_idem (s : Str) : trimList (trimList s) = trimList s := by
  have h2 : (trimList s).reverse = (s.dropWhile wsChar).reverse.dropWhile wsChar := by
    unfold trimList
    rw [List.reverse_reverse]
  show (((trimList s).dropWhile wsChar).reverse.dropWhile wsChar).reverse = _
  rw [trimList_dropWhile_fix, h2, List.dropWhile_idempotent]
  rfl

theorem trimList_subset (s : Str) : trimList s ⊆ s := by
  unfold trimList
  intro x hx
  exact (List.dropWhile_suffix wsChar).subset
    ((isPrefix_trimR wsChar (s.dropWhile wsChar)).subset hx)

theorem replaceChar_of_not_mem {s : Str} {c : Char} (r : Str) (h : c ∉ s) :
    replaceChar s c r = s := by
  induction s with
  | nil => rfl
  | cons x xs ih =>
    simp only [List.mem_cons, not_or] at h
    simp only [replaceChar, List.flatMap_cons, if_neg (Ne.symm h.1)]
    simpa [replaceChar] using ih h.2

theorem mem_replaceChar {s : Str} {c : Char} {r : Str} {x : Char}
    (h : x ∈ replaceChar s c r) : x ∈ s ∨ x ∈ r := by
  simp only [replaceChar, List.mem_flatMap] at h
  obtain ⟨a, ha, hx⟩ := h
  by_cases hac : a = c
  · rw [if_pos hac] at hx
    exact Or.inr hx
  · rw [if_neg hac] at hx
    simp at hx
    subst hx
    exact Or.inl ha

theorem sanitizeString_eq_trim {s : Str} (h1 : '&' ∉ s) (h2 : '<' ∉ s)
    (h3 : '>' ∉ s) : sanitizeString s = trimList s := by
  unfold sanitizeString
  rw [replaceChar_of_not_mem _ h1, replaceChar_of_not_mem _ h2,
    replaceChar_of_not_mem _ h3]

theorem mem_sanitizeString {s : Str} {x : Char} (h : x ∈ sanitizeString s) :
    x ∈ s ∨ x ∈ str "&amp;" ∨ x ∈ str "&lt;" ∨ x ∈ str "&gt;" := by
  unfold sanitizeString at h
  have h' := trimList_subset _ h
  rcases mem_replaceChar h' with h'' | hr
  · rcases mem_replaceChar h'' with h3 | hr
    · rcases mem_replaceChar h3 with h4 | hr
      · exact Or.inl h4
      · exact Or.inr (Or.inl hr)
    · exact Or.inr (Or.inr (Or.inl hr))
  · exact Or.inr (Or.inr (Or.inr hr))
-- ## Claim theorems

/-- C2: `checkRateLimit` creates/resets the entry to count 1 and allows
when no entry exists or the window has expired; denies without mutation
at or above `maxRequestsPerWindow`; otherwise increments by exactly one
and allows.  Consequently five calls within one window are all allowed,
the sixth in the same window is denied, and the first call after the
window elapses is allowed with the count reset to 1. -/
theorem checkRateLimit_spec :
    (∀ (m : RateLimitMap) (now : Nat) (k : Str),
      (m k = none ∨ ∃ e, m k = some e ∧ now > e.resetTime) →
        checkRateLimit m now k =
          (true, m.set k ⟨1, now + rateLimitWindowMs⟩)) ∧
    (∀ (m : RateLimitMap) (now : Nat) (k : Str) (e : RateLimitEntry),
      m k = some e → now ≤ e.resetTime → maxRequestsPerWindow ≤ e.count →
        checkRateLimit m now k = (false, m)) ∧
    (∀ (m : RateLimitMap) (now : Nat) (k : Str) (e : RateLimitEntry),
      m k = some e → now ≤ e.resetTime → e.count < maxRequestsPerWindow →
        checkRateLimit m now k =
          (true, m.set k ⟨e.count + 1, e.resetTime⟩)) ∧
    (∀ (m : RateLimitMap) (k : Str) (t1 t2 t3 t4 t5 t6 t7 : Nat)
      (b1 b2 b3 b4 b5 b6 b7 : Bool) (m1 m2 m3 m4 m5 m6 m7 : RateLimitMap),
      m k = none →
      t2 ≤ t1 + rateLimitWindowMs → t3 ≤ t1 + rateLimitWindowMs →
      t4 ≤ t1 + rateLimitWindowMs → t5 ≤ t1 + rateLimitWindowMs →
      t6 ≤ t1 + rateLimitWindowMs → t7 > t1 + rateLimitWindowMs →
      checkRateLimit m t1 k = (b1, m1) → checkRateLimit m1 t2 k = (b2, m2) →
      checkRateLimit m2 t3 k = (b3, m3) → checkRateLimit m3 t4 k = (b4, m4) →
      checkRateLimit m4 t5 k = (b5, m5) → checkRateLimit m5 t6 k = (b6, m6) →
      checkRateLimit m6 t7 k = (b7, m7) →
      b1 = true ∧ b2 = true ∧ b3 = true ∧ b4 = true ∧ b5 = true ∧
      b6 = false ∧ b7 = true ∧ m7 k = some ⟨1, t7 + rateLimitWindowMs⟩) := by
  refine ⟨?_, ?_, ?_, ?_⟩
  · rintro m now k (h | ⟨e, h, ht⟩)
    · exact checkRateLimit_none m now k h
    · exact checkRateLimit_expired m now k e h ht
  · intro m now k e h ht hc
    exact checkRateLimit_full m now k e h (by omega) hc
  · intro m now k e h ht hc
    exact checkRateLimit_incr m now k e h (by omega) (by omega)
  · intro m k t1 t2 t3 t4 t5 t6 t7 b1 b2 b3 b4 b5 b6 b7 m1 m2 m3 m4 m5 m6 m7
      hm h2 h3 h4 h5 h6 h7 s1 s2 s3 s4 s5 s6 s7
    rw [checkRateLimit_none m t1 k hm] at s1
    injection s1 with hb1 hm1
    subst hm1
    rw [checkRateLimit_incr _ t2 k ⟨1, t1 + rateLimitWindowMs⟩
      (RateLimitMap.get_set ..) (by simp; omega)
      (by simp [maxRequestsPerWindow])] at s2
    injection s2 with hb2 hm2
    subst hm2
    rw [checkRateLimit_incr _ t3 k ⟨2, t1 + rateLimitWindowMs⟩
      (RateLimitMap.get_set ..) (by simp; omega)
      (by simp [maxRequestsPerWindow])] at s3
    injection s3 with hb3 hm3
    subst hm3
    rw [checkRateLimit_incr _ t4 k ⟨3, t1 + rateLimitWindowMs⟩
      (RateLimitMap.get_set ..) (by simp; omega)
      (by simp [maxRequestsPerWindow])] at s4
    injection s4 with hb4 hm4
    subst hm4
    rw [checkRateLimit_incr _ t5 k ⟨4, t1 + rateLimitWindowMs⟩
      (RateLimitMap.get_set ..) (by simp; omega)
      (by simp [maxRequestsPerWindow])] at s5
    injection s5 with hb5 hm5
    subst hm5
    rw [checkRateLimit_full _ t6 k ⟨5, t1 + rateLimitWindowMs⟩
      (RateLimitMap.get_set ..) (by simp; omega)
      (by simp [maxRequestsPerWindow])] at s6
    injection s6 with hb6 hm6
    subst hm6
    rw [checkRateLimit_expired _ t7 k ⟨5, t1 + rateLimitWindowMs⟩
      (RateLimitMap.get_set ..) (by simp; omega)] at s7
    injection s7 with hb7 hm7
    subst hm7
    exact ⟨hb1.symm, hb2.symm, hb3.symm, hb4.symm, hb5.symm, hb6.symm,
      hb7.symm, RateLimitMap.get_set ..⟩

/-- Witness for C2: the fresh-key case, the deny-at-five case, the
increment case, and the full six-calls-then-new-window scenario, all at
concrete inputs. -/
theorem checkRateLimit_spec_witness :
    checkRateLimit wMap0 0 (str "k") = (true, wMap1) ∧
    checkRateLimit wMap5 50 (str "k") = (false, wMap5) ∧
    checkRateLimit wMap1 50 (str "k") = (true, wMap2) ∧
    (true = true ∧ true = true ∧ true = true ∧ true = true ∧ true = true ∧
      false = false ∧ true = true ∧
      wMap7 (str "k") = some ⟨1, 60001 + rateLimitWindowMs⟩) := by
  refine ⟨?_, ?_, ?_, ?_⟩
  · exact checkRateLimit_spec.1 wMap0 0 (str "k") (Or.inl rfl)
  · exact checkRateLimit_spec.2.1 wMap5 50 (str "k") ⟨5, 60000⟩ rfl
      (by decide) (by decide)
  · exact checkRateLimit_spec.2.2.1 wMap1 50 (str "k") ⟨1, 60000⟩ rfl
      (by decide) (by decide)
  · exact checkRateLimit_spec.2.2.2 wMap0 (str "k") 0 10 20 30 40 50 60001
      true true true true true false true wMap1 wMap2 wMap3 wMap4 wMap5 wMap5
      wMap7 rfl (by decide) (by decide) (by decide) (by decide) (by decide)
      (by decide) rfl rfl rfl rfl rfl rfl rfl

/-- C3 counterexample: on the input `"&"`, which contains neither `<`
nor `>`, sanitization is not idempotent — the escaped `&amp;` is
re-escaped to `&amp;amp;`. -/
theorem sanitize_not_idempotent_on_amp :
    sanitizeString (sanitizeString (str "&")) ≠ sanitizeString (str "&") := by
  decide

/-- C3 amended: sanitization is idempotent on inputs free of `<`, `>`
and `&` (the counterexample forces excluding `&` as well). -/
theorem sanitize_idempotent (s : Str) (h1 : '&' ∉ s) (h2 : '<' ∉ s)
    (h3 : '>' ∉ s) : sanitizeString (sanitizeString s) = sanitizeString s := by
  rw [sanitizeString_eq_trim h1 h2 h3]
  have t1 : '&' ∉ trimList s := fun hx => h1 (trimList_subset s hx)
  have t2 : '<' ∉ trimList s := fun hx => h2 (trimList_subset s hx)
  have t3 : '>' ∉ trimList s := fun hx => h3 (trimList_subset s hx)
  rw [sanitizeString_eq_trim t1 t2 t3, trimList_idem]

/-- Witness for C3's amended theorem at the concrete input `" ab "`. -/
theorem sanitize_idempotent_witness :
    sanitizeString (sanitizeString (str " ab ")) = sanitizeString (str " ab ") :=
  sanitize_idempotent (str " ab ") (by decide) (by decide) (by decide)
theorem takeWhile_append_cons {p : Char → Bool} {a r : Str} {x : Char}
    (ha : ∀ y ∈ a, p y = true) (hx : ¬ p x = true) :
    (a ++ x :: r).takeWhile p = a ∧ (a ++ x :: r).dropWhile p = x :: r := by
  induction a with
  | nil =>
    simp [List.takeWhile_cons, List.dropWhile_cons, hx]
  | cons y ys ih =>
    have hy : p y = true := ha y (by simp)
    have ih' := ih (fun z hz => ha z (by simp [hz]))
    simp [List.takeWhile_cons, List.dropWhile_cons, hy, ih'.1, ih'.2]

theorem isValidEmail_ne_nil {s : Str} (h : isValidEmail s = true) : s ≠ [] := by
  intro hs
  subst hs
  simp [isValidEmail] at h

theorem isValidEmail_iff (s : Str) :
    isValidEmail s = true ↔ emailPatternSpec s := by
  constructor
  · intro h
    unfold isValidEmail at h
    rcases hd : s.dropWhile (fun c => decide (c ≠ '@')) with _ | ⟨x, d⟩
    · rw [hd] at h
      simp at h
    · rw [hd] at h
      have hx : x = '@' := by
        have hhead := List.head?_dropWhile_not (fun c => decide (c ≠ '@')) s
        rw [hd] at hhead
        simpa using hhead
      subst hx
      simp only [Bool.and_eq_true, decide_eq_true_eq] at h
      obtain ⟨⟨⟨hane, haall⟩, hdall⟩, hdot⟩ := h
      rcases hdd : d with _ | ⟨y, d'⟩
      · subst hdd
        simp at hdot
      · subst hdd
        simp only [List.drop_succ_cons, List.drop_zero] at hdot
        have hcont : '.' ∈ d'.dropLast := by simpa using hdot
        have hd'ne : d' ≠ [] := by
          intro hnil
          rw [hnil] at hcont
          simp at hcont
        obtain ⟨z, hz⟩ : ∃ z, d'.dropLast ++ [z] = d' :=
          ⟨d'.getLast hd'ne, List.dropLast_append_getLast hd'ne⟩
        obtain ⟨u, v, huv⟩ := List.append_of_mem hcont
        have hsplit : d' = u ++ '.' :: (v ++ [z]) := by
          rw [← hz, huv]
          simp
        have hokd : ∀ w, w ∈ (y :: d' : Str) → emailCharOk w = true :=
          fun w hw => (List.all_eq_true.mp hdall) w hw
        have hA : s = s.takeWhile (fun c => decide (c ≠ '@')) ++ '@' :: y :: d' := by
          conv_lhs => rw [← List.takeWhile_append_dropWhile
            (fun c => decide (c ≠ '@')) s, hd]
        refine ⟨s.takeWhile (fun c => decide (c ≠ '@')), y :: u, v ++ [z],
          ?_, hane, by simp, by simp, ?_, ?_, ?_⟩
        · conv_lhs => rw [hA]
          rw [hsplit]
          simp
        · exact List.all_eq_true.mp haall
        · intro w hw
          apply hokd w
          rcases List.mem_cons.mp hw with h1 | h1
          · simp [h1]
          · rw [hsplit]
            simp only [List.mem_cons, List.mem_append]
            tauto
        · intro w hw
          apply hokd w
          rw [hsplit]
          simp only [List.mem_cons, List.mem_append] at hw ⊢
          tauto
  · rintro ⟨a, b, c, hs, hane, hbne, hcne, pa, pb, pc⟩
    have hdotok : emailCharOk '.' = true := by decide
    have hallp : ∀ y ∈ a, (fun c => decide (c ≠ '@')) y = true := by
      intro y hy
      have := pa y hy
      simp only [emailCharOk, Bool.and_eq_true, decide_eq_true_eq] at this
      simp [this.2]
    have hxp : ¬ (fun c : Char => decide (c ≠ '@')) '@' = true := by simp
    obtain ⟨htake, hdrop⟩ :=
      takeWhile_append_cons (r := b ++ '.' :: c) hallp hxp
    unfold isValidEmail
    rw [hs, hdrop]
    simp only [htake, Bool.and_eq_true, decide_eq_true_eq]
    refine ⟨⟨⟨hane, List.all_eq_true.mpr pa⟩, ?_⟩, ?_⟩
    · refine List.all_eq_true.mpr ?_
      intro w hw
      rcases List.mem_append.mp hw with h1 | h1
      · exact pb w h1
      · rcases List.mem_cons.mp h1 with h2 | h2
        · simp [h2, hdotok]
        · exact pc w h2
    · rcases hbb : b with _ | ⟨y, b'⟩
      · exact absurd hbb hbne
      · subst hbb
        simp only [List.cons_append, List.drop_succ_cons, List.drop_zero]
        have hstep : (b' ++ '.' :: c).dropLast = b' ++ ('.' :: c).dropLast := by
          rw [List.dropLast_append]
          simp
        rw [hstep, List.dropLast_cons_of_ne_nil hcne]
        simp
theorem failsTrimCheck_false_iff (v : JSValue) (k : Nat) (hk : 1 ≤ k) :
    failsTrimCheck v k = false ↔ ∃ s, v = .jstr s ∧ k ≤ (trimList s).length := by
  cases v
  case jstr s =>
    by_cases hne : s = []
    · subst hne
      simp [failsTrimCheck, truthy, trimList]
      omega
    · simp [failsTrimCheck, truthy, isStrVal, hne, not_lt]
  all_goals simp [failsTrimCheck, truthy, isStrVal]

theorem failsEmailCheck_false_iff (v : JSValue) :
    failsEmailCheck v = false ↔ specEmailOk v := by
  cases v
  case jstr s =>
    by_cases hne : s = []
    · subst hne
      simp [failsEmailCheck, truthy, specEmailOk]
      intro h
      have := (isValidEmail_iff []).mpr h
      simp [isValidEmail] at this
    · simp [failsEmailCheck, truthy, isStrVal, hne, specEmailOk,
        ← isValidEmail_iff]
  all_goals simp [failsEmailCheck, truthy, isStrVal, specEmailOk]

theorem messageChecks_false_iff (v : JSValue) :
    (failsTrimCheck v 10 = false ∧ failsLengthCheck v = false) ↔
      specMessageOk v := by
  cases v
  case jstr s =>
    by_cases hne : s = []
    · subst hne
      simp [failsTrimCheck, failsLengthCheck, truthy, trimList, specMessageOk]
    · simp [failsTrimCheck, failsLengthCheck, truthy, isStrVal, hne,
        specMessageOk, jsLengthVal, not_lt, maxMessageLength]
  all_goals
    simp [failsTrimCheck, failsLengthCheck, truthy, isStrVal, specMessageOk]
theorem validateContactData_obj (fs : List (String × JSValue)) :
    validateContactData (.obj fs) =
      .ok ⟨decide ((valErrors fs).length = 0), valErrors fs⟩ := rfl

/-- C4 counterexample: a `null` payload (for instance from a request body
`"null"`) makes `validateContactData` throw a `TypeError` instead of
returning a result. -/
theorem validateContactData_null_throws :
    validateContactData .null = .error .typeError := rfl

/-- C4 amended: for every payload that is neither `null` nor `undefined`
— whatever its shape or type otherwise — `validateContactData` returns a
structured result and never throws. -/
theorem validateContactData_total (v : JSValue) (h1 : v ≠ .null)
    (h2 : v ≠ .undefined) : (validateContactData v).isOk = true := by
  cases v
  · exact absurd rfl h1
  · exact absurd rfl h2
  all_goals rfl

/-- Witness for C4's amended theorem at concrete payloads of several
shapes. -/
theorem validateContactData_total_witness :
    (validateContactData (.obj [])).isOk = true ∧
    (validateContactData (.num 7)).isOk = true ∧
    (validateContactData (.jstr (str "x"))).isOk = true ∧
    (validateContactData (.arr [.null])).isOk = true :=
  ⟨validateContactData_total (.obj []) (by simp) (by simp),
   validateContactData_total (.num 7) (by simp) (by simp),
   validateContactData_total (.jstr (str "x")) (by simp) (by simp),
   validateContactData_total (.arr [.null]) (by simp) (by simp)⟩

/-- C5: on every object payload the validator returns a result that is
valid exactly when the name, email and message rules all hold, whose
error list is empty exactly when it is valid, and in which every violated
rule contributes its corresponding error string. -/
theorem validateContactData_rules (fs : List (String × JSValue)) :
    ∃ r, validateContactData (.obj fs) = .ok r ∧
      (r.isValid = true ↔
        specNameOk (lookupField fs "name") ∧
        specEmailOk (lookupField fs "email") ∧
        specMessageOk (lookupField fs "message")) ∧
      (r.isValid = true ↔ r.errors = []) ∧
      (¬ specNameOk (lookupField fs "name") → nameErrStr ∈ r.errors) ∧
      (¬ specEmailOk (lookupField fs "email") → emailErrStr ∈ r.errors) ∧
      (¬ specMessageOk (lookupField fs "message") →
        messageErrStr ∈ r.errors ∨ lengthErrStr ∈ r.errors) := by
  refine ⟨_, validateContactData_obj fs, ?_, ?_, ?_, ?_, ?_⟩
  · rw [show (specNameOk (lookupField fs "name")) =
        (∃ s, lookupField fs "name" = .jstr s ∧ 2 ≤ (trimList s).length)
        from rfl,
      ← failsTrimCheck_false_iff _ 2 (by omega),
      ← failsEmailCheck_false_iff, ← messageChecks_false_iff]
    simp only [decide_eq_true_eq, List.length_eq_zero, valErrors,
      List.append_eq_nil]
    constructor
    · intro ⟨⟨⟨h1, h2⟩, h3⟩, h4⟩
      refine ⟨?_, ?_, ?_, ?_⟩ <;> by_contra hc <;> simp [hc] at h1 h2 h3 h4
    · rintro ⟨h1, h2, h3, h4⟩
      simp [h1, h2, h3, h4]
  · simp only [decide_eq_true_eq, List.length_eq_zero]
  · intro h
    have h' : ¬ (∃ s, lookupField fs "name" = .jstr s ∧
        2 ≤ (trimList s).length) := h
    rw [← failsTrimCheck_false_iff _ 2 (by omega)] at h'
    simp only [Bool.not_eq_false] at h'
    simp [valErrors, h']
  · intro h
    rw [← failsEmailCheck_false_iff] at h
    simp only [Bool.not_eq_false] at h
    simp [valErrors, h]
  · intro h
    rw [← messageChecks_false_iff] at h
    simp only [not_and_or, Bool.not_eq_false] at h
    rcases h with h | h <;> simp [valErrors, h]
/-- Witness for C5 at the concrete empty-object payload: all three rules
fail and each contributes its error string. -/
theorem validateContactData_rules_witness :
    ∃ r, validateContactData (.obj []) = .ok r ∧ nameErrStr ∈ r.errors ∧
      emailErrStr ∈ r.errors ∧
      (messageErrStr ∈ r.errors ∨ lengthErrStr ∈ r.errors) := by
  obtain ⟨r, hr, -, -, hname, hemail, hmsg⟩ := validateContactData_rules []
  refine ⟨r, hr, ?_, ?_, ?_⟩
  · refine hname ?_
    rintro ⟨s, hs, -⟩
    simp [lookupField] at hs
  · refine hemail ?_
    rintro ⟨s, hs, -⟩
    simp [lookupField] at hs
  · refine hmsg ?_
    rintro ⟨s, hs, -⟩
    simp [lookupField] at hs
theorem handler_options (cfg : Config) (ev : HandlerEvent) (m : RateLimitMap)
    (now : Nat) (parse : Str → Except Unit JSValue) (nowStr : Str)
    (sendOut : SendOutcome) (h : ev.httpMethod = str "OPTIONS") :
    handler cfg ev m now parse nowStr sendOut =
      ⟨200, corsHeadersOf cfg ev, .msg (str "CORS preflight successful"),
        m, none⟩ := by
  simp [handler, h]

theorem handler_bad_method (cfg : Config) (ev : HandlerEvent)
    (m : RateLimitMap) (now : Nat) (parse : Str → Except Unit JSValue)
    (nowStr : Str) (sendOut : SendOutcome)
    (h1 : ev.httpMethod ≠ str "OPTIONS") (h2 : ev.httpMethod ≠ str "POST") :
    handler cfg ev m now parse nowStr sendOut =
      ⟨405, corsHeadersOf cfg ev,
        .api false (str "Method not allowed. Use POST.") none, m, none⟩ := by
  simp [handler, h1, h2]

theorem handler_rate_denied (cfg : Config) (ev : HandlerEvent)
    (m m' : RateLimitMap) (now : Nat) (parse : Str → Except Unit JSValue)
    (nowStr : Str) (sendOut : SendOutcome) (h : ev.httpMethod = str "POST")
    (hr : checkRateLimit m now (clientIPOf ev) = (false, m')) :
    handler cfg ev m now parse nowStr sendOut =
      ⟨429, corsHeadersOf cfg ev,
        .api false (str "Too many requests. Please try again later.") none,
        m', none⟩ := by
  have h1 : ¬ (str "POST" = str "OPTIONS") := by decide
  simp [handler, h, h1, hr]

theorem handler_parse_error (cfg : Config) (ev : HandlerEvent)
    (m m' : RateLimitMap) (now : Nat) (parse : Str → Except Unit JSValue)
    (nowStr : Str) (sendOut : SendOutcome) (h : ev.httpMethod = str "POST")
    (hr : checkRateLimit m now (clientIPOf ev) = (true, m'))
    (e : Unit) (hp : parse (bodyOrDefault ev.body) = .error e) :
    handler cfg ev m now parse nowStr sendOut =
      ⟨400, corsHeadersOf cfg ev,
        .api false (str "Invalid JSON in request body") none, m', none⟩ := by
  have h1 : ¬ (str "POST" = str "OPTIONS") := by decide
  simp [handler, h, h1, hr, hp]

theorem handler_validate_throw (cfg : Config) (ev : HandlerEvent)
    (m m' : RateLimitMap) (now : Nat) (parse : Str → Except Unit JSValue)
    (nowStr : Str) (sendOut : SendOutcome) (h : ev.httpMethod = str "POST")
    (hr : checkRateLimit m now (clientIPOf ev) = (true, m'))
    (v : JSValue) (hp : parse (bodyOrDefault ev.body) = .ok v)
    (e : JSError) (hv : validateContactData v = .error e) :
    handler cfg ev m now parse nowStr sendOut =
      ⟨500, corsHeadersOf cfg ev,
        .api false (str "An unexpected error occurred. Please try again.")
          none, m', none⟩ := by
  have h1 : ¬ (str "POST" = str "OPTIONS") := by decide
  simp [handler, h, h1, hr, hp, hv]

theorem handler_invalid (cfg : Config) (ev : HandlerEvent)
    (m m' : RateLimitMap) (now : Nat) (parse : Str → Except Unit JSValue)
    (nowStr : Str) (sendOut : SendOutcome) (h : ev.httpMethod = str "POST")
    (hr : checkRateLimit m now (clientIPOf ev) = (true, m'))
    (v : JSValue) (hp : parse (bodyOrDefault ev.body) = .ok v)
    (r : ValidationResult) (hv : validateContactData v = .ok r)
    (hiv : r.isValid = false) :
    handler cfg ev m now parse nowStr sendOut =
      ⟨400, corsHeadersOf cfg ev,
        .api false (str "Validation failed") (some (joinComma r.errors)),
        m', none⟩ := by
  have h1 : ¬ (str "POST" = str "OPTIONS") := by decide
  simp [handler, h, h1, hr, hp, hv, hiv]

theorem handler_extract_throw (cfg : Config) (ev : HandlerEvent)
    (m m' : RateLimitMap) (now : Nat) (parse : Str → Except Unit JSValue)
    (nowStr : Str) (sendOut : SendOutcome) (h : ev.httpMethod = str "POST")
    (hr : checkRateLimit m now (clientIPOf ev) = (true, m'))
    (v : JSValue) (hp : parse (bodyOrDefault ev.body) = .ok v)
    (r : ValidationResult) (hv : validateContactData v = .ok r)
    (hiv : r.isValid = true) (e : JSError)
    (hx : toContactFormData v = .error e) :
    handler cfg ev m now parse nowStr sendOut =
      ⟨500, corsHeadersOf cfg ev,
        .api false (str "An unexpected error occurred. Please try again.")
          none, m', none⟩ := by
  have h1 : ¬ (str "POST" = str "OPTIONS") := by decide
  simp [handler, h, h1, hr, hp, hv, hiv, hx]

theorem handler_send (cfg : Config) (ev : HandlerEvent)
    (m m' : RateLimitMap) (now : Nat) (parse : Str → Except Unit JSValue)
    (nowStr : Str) (sendOut : SendOutcome) (h : ev.httpMethod = str "POST")
    (hr : checkRateLimit m now (clientIPOf ev) = (true, m'))
    (v : JSValue) (hp : parse (bodyOrDefault ev.body) = .ok v)
    (r : ValidationResult) (hv : validateContactData v = .ok r)
    (hiv : r.isValid = true) (cd : ContactFormData)
    (hx : toContactFormData v = .ok cd) :
    handler cfg ev m now parse nowStr sendOut =
      ⟨(match sendOut with
        | .throws => 500
        | .errResult => 500
        | .ok => 200),
       corsHeadersOf cfg ev,
       (match sendOut with
        | .throws =>
          .api false
            (str "An unexpected error occurred. Please try again.") none
        | .errResult =>
          .api false (str "Failed to send email. Please try again.") none
        | .ok => .api true (str "Message sent successfully!") none),
       m',
       some ⟨fromFieldOf cfg, cfg.recipientEmail,
         (createEmailContent cd nowStr).subject,
         (createEmailContent cd nowStr).html,
         (createEmailContent cd nowStr).text, cd.email⟩⟩ := by
  have h1 : ¬ (str "POST" = str "OPTIONS") := by decide
  cases sendOut <;> simp [handler, h, h1, hr, hp, hv, hiv, hx]
theorem handler_headers (cfg : Config) (ev : HandlerEvent) (m : RateLimitMap)
    (now : Nat) (parse : Str → Except Unit JSValue) (nowStr : Str)
    (sendOut : SendOutcome) :
    (handler cfg ev m now parse nowStr sendOut).headers =
      corsHeadersOf cfg ev := by
  unfold handler
  repeat first | rfl | split

/-- C1: when the handler answers 429 (rate-limited) or 400 with message
"Validation failed" (validator rejected), no provider call is made. -/
theorem no_dispatch_on_reject (cfg : Config) (ev : HandlerEvent)
    (m : RateLimitMap) (now : Nat) (parse : Str → Except Unit JSValue)
    (nowStr : Str) (sendOut : SendOutcome)
    (h : (handler cfg ev m now parse nowStr sendOut).statusCode = 429 ∨
      ((handler cfg ev m now parse nowStr sendOut).statusCode = 400 ∧
        respMessage (handler cfg ev m now parse nowStr sendOut).body =
          str "Validation failed")) :
    (handler cfg ev m now parse nowStr sendOut).sent = none := by
  revert h
  unfold handler
  repeat' split
  all_goals
    rintro (h | ⟨h, hm⟩) <;>
      first
        | rfl
        | simp at h
/-- Witness for C1 at a concrete POST whose empty-object payload fails
validation. -/
theorem no_dispatch_on_reject_witness :
    (handler ⟨[], str "r@x.co", str "f@x.co", str "N"⟩
      ⟨str "POST", ⟨none, none, none⟩, none⟩ (fun _ => none) 0
      (fun _ => .ok (.obj [])) (str "ts") .ok).sent = none :=
  no_dispatch_on_reject _ _ _ _ _ _ _ (Or.inr ⟨rfl, rfl⟩)

/-- C6 counterexample: with the non-empty configured allow-list `[""]`
(the result of `ALLOWED_ORIGINS=""`) and a request with no Origin header,
the emitted header value is `""`, not the claimed `"null"`. -/
theorem corsValue_counterexample :
    ([([] : Str)] : List Str) ≠ [] ∧
    corsValue [([] : Str)] none = ([] : Str) ∧
    corsValue [([] : Str)] none ≠ str "null" := by
  refine ⟨by simp, by decide, by decide⟩

/-- C6 amended: the `Access-Control-Allow-Origin` value on every handler
response equals `corsValue`; with a non-empty allow-list it echoes the
Origin header (an absent Origin read as the empty string) when that value
is in the list and is `"null"` otherwise; with no allow-list it is `"*"`. -/
theorem corsHeader_spec (cfg : Config) (ev : HandlerEvent) (m : RateLimitMap)
    (now : Nat) (parse : Str → Except Unit JSValue) (nowStr : Str)
    (sendOut : SendOutcome) :
    (handler cfg ev m now parse nowStr sendOut).headers =
      corsHeadersOf cfg ev ∧
    (handler cfg ev m now parse nowStr
        sendOut).headers.accessControlAllowOrigin =
      corsValue cfg.allowedOrigins ev.headers.origin ∧
    (cfg.allowedOrigins ≠ [] →
      ((jsOrStr ev.headers.origin [] ∈ cfg.allowedOrigins →
          corsValue cfg.allowedOrigins ev.headers.origin =
            jsOrStr ev.headers.origin []) ∧
        (jsOrStr ev.headers.origin [] ∉ cfg.allowedOrigins →
          corsValue cfg.allowedOrigins ev.headers.origin = str "null"))) ∧
    (cfg.allowedOrigins = [] →
      corsValue cfg.allowedOrigins ev.headers.origin = str "*") := by
  refine ⟨handler_headers _ _ _ _ _ _ _, ?_, ?_, ?_⟩
  · rw [handler_headers]
    rfl
  · intro hne
    have hlen : 0 < cfg.allowedOrigins.length := List.length_pos.mpr hne
    constructor
    · intro hmem
      have hc : cfg.allowedOrigins.contains (jsOrStr ev.headers.origin [])
          = true := List.elem_iff.mpr hmem
      simp [corsValue, hlen, hc]
      intro hno
      exact absurd hmem hno
    · intro hmem
      have hc : cfg.allowedOrigins.contains (jsOrStr ev.headers.origin [])
          = false := by
        by_contra hcc
        rw [Bool.not_eq_false] at hcc
        exact hmem (List.elem_iff.mp hcc)
      simp [corsValue, hlen, hc]
      intro hin
      exact absurd hin hmem
  · intro hnil
    simp [corsValue, hnil]

/-- Witness for C6's amended theorem: all three regimes at concrete
configurations. -/
theorem corsHeader_spec_witness :
    corsValue [str "https://a.com"] (some (str "https://a.com")) =
      jsOrStr (some (str "https://a.com")) [] ∧
    corsValue [str "https://a.com"] (some (str "https://b.com")) =
      str "null" ∧
    corsValue [] (some (str "https://a.com")) = str "*" := by
  refine ⟨?_, ?_, ?_⟩
  · exact ((corsHeader_spec ⟨[str "https://a.com"], [], [], []⟩
      ⟨str "GET", ⟨some (str "https://a.com"), none, none⟩, none⟩
      (fun _ => none) 0 (fun _ => .error ()) [] .ok).2.2.1
        (by simp)).1 (by decide)
  · exact ((corsHeader_spec ⟨[str "https://a.com"], [], [], []⟩
      ⟨str "GET", ⟨some (str "https://b.com"), none, none⟩, none⟩
      (fun _ => none) 0 (fun _ => .error ()) [] .ok).2.2.1
        (by simp)).2 (by decide)
  · exact (corsHeader_spec ⟨[], [], [], []⟩
      ⟨str "GET", ⟨some (str "https://a.com"), none, none⟩, none⟩
      (fun _ => none) 0 (fun _ => .error ()) [] .ok).2.2.2 rfl
/-- C7: the handler's total response mapping — OPTIONS → 200 preflight
body; other non-POST methods → 405; rate-limited POST → 429; unparseable
body → 400 invalid JSON; failed validation → 400 with the joined error
detail; provider error → 500; any modelled exception (validator, field
extraction, provider throw) → the catch-all 500; otherwise 200 success.
The model is a total function, so no exception escapes the handler. -/
theorem handler_response_mapping (cfg : Config) (ev : HandlerEvent)
    (m : RateLimitMap) (now : Nat) (parse : Str → Except Unit JSValue)
    (nowStr : Str) (sendOut : SendOutcome) :
    (ev.httpMethod = str "OPTIONS" →
      handler cfg ev m now parse nowStr sendOut =
        ⟨200, corsHeadersOf cfg ev, .msg (str "CORS preflight successful"),
          m, none⟩) ∧
    (ev.httpMethod ≠ str "OPTIONS" → ev.httpMethod ≠ str "POST" →
      handler cfg ev m now parse nowStr sendOut =
        ⟨405, corsHeadersOf cfg ev,
          .api false (str "Method not allowed. Use POST.") none, m, none⟩) ∧
    (∀ m', ev.httpMethod = str "POST" →
      checkRateLimit m now (clientIPOf ev) = (false, m') →
      handler cfg ev m now parse nowStr sendOut =
        ⟨429, corsHeadersOf cfg ev,
          .api false (str "Too many requests. Please try again later.") none,
          m', none⟩) ∧
    (∀ m' e, ev.httpMethod = str "POST" →
      checkRateLimit m now (clientIPOf ev) = (true, m') →
      parse (bodyOrDefault ev.body) = .error e →
      handler cfg ev m now parse nowStr sendOut =
        ⟨400, corsHeadersOf cfg ev,
          .api false (str "Invalid JSON in request body") none, m', none⟩) ∧
    (∀ m' v r, ev.httpMethod = str "POST" →
      checkRateLimit m now (clientIPOf ev) = (true, m') →
      parse (bodyOrDefault ev.body) = .ok v →
      validateContactData v = .ok r → r.isValid = false →
      handler cfg ev m now parse nowStr sendOut =
        ⟨400, corsHeadersOf cfg ev,
          .api false (str "Validation failed") (some (joinComma r.errors)),
          m', none⟩) ∧
    (∀ m' v e, ev.httpMethod = str "POST" →
      checkRateLimit m now (clientIPOf ev) = (true, m') →
      parse (bodyOrDefault ev.body) = .ok v →
      validateContactData v = .error e →
      handler cfg ev m now parse nowStr sendOut =
        ⟨500, corsHeadersOf cfg ev,
          .api false (str "An unexpected error occurred. Please try again.")
            none, m', none⟩) ∧
    (∀ m' v r e, ev.httpMethod = str "POST" →
      checkRateLimit m now (clientIPOf ev) = (true, m') →
      parse (bodyOrDefault ev.body) = .ok v →
      validateContactData v = .ok r → r.isValid = true →
      toContactFormData v = .error e →
      handler cfg ev m now parse nowStr sendOut =
        ⟨500, corsHeadersOf cfg ev,
          .api false (str "An unexpected error occurred. Please try again.")
            none, m', none⟩) ∧
    (∀ m' v r cd, ev.httpMethod = str "POST" →
      checkRateLimit m now (clientIPOf ev) = (true, m') →
      parse (bodyOrDefault ev.body) = .ok v →
      validateContactData v = .ok r → r.isValid = true →
      toContactFormData v = .ok cd →
      ((sendOut = .throws →
        (handler cfg ev m now parse nowStr sendOut).statusCode = 500 ∧
        respMessage (handler cfg ev m now parse nowStr sendOut).body =
          str "An unexpected error occurred. Please try again.") ∧
       (sendOut = .errResult →
        (handler cfg ev m now parse nowStr sendOut).statusCode = 500 ∧
        respMessage (handler cfg ev m now parse nowStr sendOut).body =
          str "Failed to send email. Please try again.") ∧
       (sendOut = .ok →
        (handler cfg ev m now parse nowStr sendOut).statusCode = 200 ∧
        (handler cfg ev m now parse nowStr sendOut).body =
          .api true (str "Message sent successfully!") none))) := by
  refine ⟨handler_options cfg ev m now parse nowStr sendOut,
    handler_bad_method cfg ev m now parse nowStr sendOut,
    fun m' => handler_rate_denied cfg ev m m' now parse nowStr sendOut,
    fun m' e h hr hp =>
      handler_parse_error cfg ev m m' now parse nowStr sendOut h hr e hp,
    ?_, ?_, ?_, ?_⟩
  · intro m' v r h hr hp hv hiv
    exact handler_invalid cfg ev m m' now parse nowStr sendOut h hr v hp r
      hv hiv
  · intro m' v e h hr hp hv
    exact handler_validate_throw cfg ev m m' now parse nowStr sendOut h hr v
      hp e hv
  · intro m' v r e h hr hp hv hiv hx
    exact handler_extract_throw cfg ev m m' now parse nowStr sendOut h hr v
      hp r hv hiv e hx
  · intro m' v r cd h hr hp hv hiv hx
    have key := handler_send cfg ev m m' now parse nowStr sendOut h hr v hp
      r hv hiv cd hx
    refine ⟨?_, ?_, ?_⟩ <;> intro hs <;> subst hs <;> rw [key] <;>
      exact ⟨rfl, rfl⟩
/-- Witness for C7: every branch of the mapping exercised at concrete
inputs. -/
theorem handler_response_mapping_witness :
    (handler wCfg (wEvent "OPTIONS") wMap0 0 wParseFail (str "ts")
      .ok).statusCode = 200 ∧
    (handler wCfg (wEvent "GET") wMap0 0 wParseFail (str "ts")
      .ok).statusCode = 405 ∧
    (handler wCfg (wEvent "POST") wMap5 0 wParseFail (str "ts")
      .ok).statusCode = 429 ∧
    (handler wCfg (wEvent "POST") wMap0 0 wParseFail (str "ts")
      .ok).statusCode = 400 ∧
    (handler wCfg (wEvent "POST") wMap0 0 wParseEmptyObj (str "ts")
      .ok).statusCode = 400 ∧
    (handler wCfg (wEvent "POST") wMap0 0 wParseGood (str "ts")
      .errResult).statusCode = 500 ∧
    (handler wCfg (wEvent "POST") wMap0 0 wParseGood (str "ts")
      .ok).statusCode = 200 := by
  refine ⟨?_, ?_, ?_, ?_, ?_, ?_, ?_⟩
  · rw [(handler_response_mapping wCfg (wEvent "OPTIONS") wMap0 0 wParseFail
      (str "ts") .ok).1 rfl]
  · rw [(handler_response_mapping wCfg (wEvent "GET") wMap0 0 wParseFail
      (str "ts") .ok).2.1 (by decide) (by decide)]
  · rw [(handler_response_mapping wCfg (wEvent "POST") wMap5 0 wParseFail
      (str "ts") .ok).2.2.1 wMap5 rfl rfl]
  · rw [(handler_response_mapping wCfg (wEvent "POST") wMap0 0 wParseFail
      (str "ts") .ok).2.2.2.1 (wMap0.set (str "k") ⟨1, 60000⟩) () rfl rfl
      rfl]
  · rw [(handler_response_mapping wCfg (wEvent "POST") wMap0 0
      wParseEmptyObj (str "ts") .ok).2.2.2.2.1
      (wMap0.set (str "k") ⟨1, 60000⟩) (.obj [])
      ⟨false, [nameErrStr, emailErrStr, messageErrStr]⟩ rfl rfl rfl rfl rfl]
  · exact ((handler_response_mapping wCfg (wEvent "POST") wMap0 0 wParseGood
      (str "ts") .errResult).2.2.2.2.2.2.2
      (wMap0.set (str "k") ⟨1, 60000⟩) wGoodPayload ⟨true, []⟩
      ⟨str "Jane Doe", str "jane@example.com", none,
        str "Hello, I would like to get in touch.", none, none⟩
      rfl rfl rfl rfl rfl rfl).2.1 rfl |>.1
  · exact ((handler_response_mapping wCfg (wEvent "POST") wMap0 0 wParseGood
      (str "ts") .ok).2.2.2.2.2.2.2
      (wMap0.set (str "k") ⟨1, 60000⟩) wGoodPayload ⟨true, []⟩
      ⟨str "Jane Doe", str "jane@example.com", none,
        str "Hello, I would like to get in touch.", none, none⟩
      rfl rfl rfl rfl rfl rfl).2.2 rfl |>.1

/-- C10: a POST whose body is absent or empty defaults to the string
consisting of an opening and a closing curly brace, which parses as the
empty object, so the handler answers 400 "Validation failed" listing the
missing name, email and message — not the invalid-JSON response. -/
theorem empty_body_spec (cfg : Config) (ev : HandlerEvent)
    (m m' : RateLimitMap) (now : Nat) (parse : Str → Except Unit JSValue)
    (nowStr : Str) (sendOut : SendOutcome)
    (hm : ev.httpMethod = str "POST")
    (hb : ev.body = none ∨ ev.body = some [])
    (hr : checkRateLimit m now (clientIPOf ev) = (true, m'))
    (hp : parse (str "\x7b\x7d") = .ok (.obj [])) :
    bodyOrDefault ev.body = str "\x7b\x7d" ∧
    handler cfg ev m now parse nowStr sendOut =
      ⟨400, corsHeadersOf cfg ev,
        .api false (str "Validation failed")
          (some (joinComma [nameErrStr, emailErrStr, messageErrStr])),
        m', none⟩ := by
  have hbd : bodyOrDefault ev.body = str "\x7b\x7d" := by
    rcases hb with h | h <;> simp [bodyOrDefault, jsOrStr, h]
  refine ⟨hbd, ?_⟩
  have hp' : parse (bodyOrDefault ev.body) = .ok (.obj []) := by
    rw [hbd]
    exact hp
  exact handler_invalid cfg ev m m' now parse nowStr sendOut hm hr (.obj [])
    hp' ⟨false, [nameErrStr, emailErrStr, messageErrStr]⟩ rfl rfl

/-- Witness for C10 at a concrete absent-body POST. -/
theorem empty_body_spec_witness :
    (handler wCfg (wEvent "POST") wMap0 0 wParseEmptyObj (str "ts")
      .ok).statusCode = 400 ∧
    respMessage (handler wCfg (wEvent "POST") wMap0 0 wParseEmptyObj
      (str "ts") .ok).body = str "Validation failed" := by
  have h := (empty_body_spec wCfg (wEvent "POST") wMap0
    (wMap0.set (str "k") ⟨1, 60000⟩) 0 wParseEmptyObj (str "ts") .ok rfl
    (Or.inl rfl) rfl rfl).2
  rw [h]
  exact ⟨rfl, rfl⟩
theorem infix_append_trichotomy {α : Type} {p a b : List α}
    (h : p <:+: a ++ b) :
    p <:+: a ∨ p <:+: b ∨
      ∃ i, 0 < i ∧ i < p.length ∧ p.take i <:+ a ∧ p.drop i <+: b := by
  obtain ⟨s, t, hst⟩ := h
  by_cases h1 : s.length + p.length ≤ a.length
  · left
    have hpre : s ++ p <+: a ++ b := ⟨t, by rw [← hst]⟩
    have hpa : s ++ p <+: a :=
      List.prefix_of_prefix_length_le hpre (List.prefix_append a b)
        (by simp only [List.length_append]; omega)
    obtain ⟨r, hr⟩ := hpa
    exact ⟨s, r, by rw [← hr]⟩
  · by_cases h2 : a.length ≤ s.length
    · right; left
      have hs : s <+: a ++ b := ⟨p ++ t, by rw [← hst, List.append_assoc]⟩
      have has : a <+: s :=
        List.prefix_of_prefix_length_le (List.prefix_append a b) hs h2
      obtain ⟨s', hs'⟩ := has
      refine ⟨s', t, ?_⟩
      have hx : a ++ (s' ++ p ++ t) = a ++ b := by
        rw [← hst, ← hs']
        simp
      exact List.append_cancel_left hx
    · right; right
      push_neg at h1 h2
      set i := a.length - s.length with hidef
      have hi0 : 0 < i := by omega
      have hil : i < p.length := by omega
      have hpre : s ++ p.take i <+: a ++ b := by
        refine List.IsPrefix.trans ?_ (⟨t, by rw [← hst]⟩ :
          s ++ p <+: a ++ b)
        rw [List.prefix_append_right_inj]
        exact List.take_prefix _ _
      have heq : s ++ p.take i = a := by
        refine (List.prefix_of_prefix_length_le hpre
          (List.prefix_append a b) ?_).eq_of_length ?_
        · simp only [List.length_append, List.length_take]
          omega
        · simp only [List.length_append, List.length_take]
          omega
      refine ⟨i, hi0, hil, ⟨s, heq⟩, ⟨t, ?_⟩⟩
      have hx : a ++ (p.drop i ++ t) = a ++ b := by
        conv_lhs => rw [← heq]
        rw [← hst]
        simp only [List.append_assoc]
        exact congrArg (s ++ ·)
          (by rw [← List.append_assoc, List.take_append_drop])
      exact List.append_cancel_left hx

theorem not_infix_append_of_safe {p a rest : Str} (ha : pSafe p a)
    (hrest : ¬ p <:+: rest) : ¬ p <:+: a ++ rest := by
  intro h
  rcases infix_append_trichotomy h with h1 | h1 | ⟨i, hi0, hil, h1, -⟩
  · exact ha.1 h1
  · exact hrest h1
  · exact ha.2 i hil hi0 h1

theorem pSafe_of_head_not_mem {p s : Str} {c : Char} (hp : p.head? = some c)
    (hc : c ∉ s) : pSafe p s := by
  have hmem : c ∈ p := by
    cases p with
    | nil => simp at hp
    | cons x xs =>
      simp at hp
      simp [hp]
  constructor
  · intro h
    exact hc (h.subset hmem)
  · intro i hil hi0 h
    apply hc
    apply h.subset
    cases p with
    | nil => simp at hp
    | cons x xs =>
      simp at hp
      subst hp
      cases i with
      | zero => omega
      | succ n => simp
set_option maxHeartbeats 1600000

theorem not_mem_sanitizeString {c : Char} {s : Str} (h : c ∉ s)
    (h2 : c ∉ str "&amp;") (h3 : c ∉ str "&lt;") (h4 : c ∉ str "&gt;") :
    c ∉ sanitizeString s := by
  intro hx
  rcases mem_sanitizeString hx with hh | hh | hh | hh
  · exact h hh
  · exact h2 hh
  · exact h3 hh
  · exact h4 hh

theorem not_infix_of_pSafe {p a : Str} (ha : pSafe p a) : ¬ p <:+: a := ha.1

theorem not_mem_optVal {c : Char} {o : Option Str}
    (h : ∀ s, o = some s → c ∉ s) : c ∉ optVal o := by
  cases ho : o with
  | none => simp [optVal]
  | some s => simpa [optVal] using h s ho

/-- C8: when the optional phone (resp. company) field is absent, the
label "Phone:" (resp. "Company:") occurs nowhere in the rendered HTML
body nor in the rendered text body — there is no placeholder line.  The
hypotheses keep the remaining user-controlled strings (and the formatted
timestamp) free of the capital letters 'P' and 'C', so that an occurrence
of a label could only come from the templates themselves. -/
theorem optional_fields_omitted (d : ContactFormData) (nowStr : Str)
    (hnP : 'P' ∉ d.name) (hnC : 'C' ∉ d.name)
    (heP : 'P' ∉ d.email) (heC : 'C' ∉ d.email)
    (hmP : 'P' ∉ d.message) (hmC : 'C' ∉ d.message)
    (hsP : ∀ s, d.subject = some s → 'P' ∉ s)
    (hsC : ∀ s, d.subject = some s → 'C' ∉ s)
    (hpP : ∀ s, d.phone = some s → 'P' ∉ s)
    (hpC : ∀ s, d.phone = some s → 'C' ∉ s)
    (hcP : ∀ s, d.company = some s → 'P' ∉ s)
    (hcC : ∀ s, d.company = some s → 'C' ∉ s)
    (htP : 'P' ∉ nowStr) (htC : 'C' ∉ nowStr) :
    (d.phone = none →
      ¬ str "Phone:" <:+: (createEmailContent d nowStr).html ∧
      ¬ str "Phone:" <:+: (createEmailContent d nowStr).text) ∧
    (d.company = none →
      ¬ str "Company:" <:+: (createEmailContent d nowStr).html ∧
      ¬ str "Company:" <:+: (createEmailContent d nowStr).text) := by
  have hNP : 'P' ∉ sanitizeString d.name :=
    not_mem_sanitizeString hnP (by decide) (by decide) (by decide)
  have hNC : 'C' ∉ sanitizeString d.name :=
    not_mem_sanitizeString hnC (by decide) (by decide) (by decide)
  have hEP : 'P' ∉ sanitizeString d.email :=
    not_mem_sanitizeString heP (by decide) (by decide) (by decide)
  have hEC : 'C' ∉ sanitizeString d.email :=
    not_mem_sanitizeString heC (by decide) (by decide) (by decide)
  have hMP : 'P' ∉ sanitizeString d.message :=
    not_mem_sanitizeString hmP (by decide) (by decide) (by decide)
  have hMC : 'C' ∉ sanitizeString d.message :=
    not_mem_sanitizeString hmC (by decide) (by decide) (by decide)
  have hRsP : 'P' ∉ optVal d.subject := not_mem_optVal hsP
  have hRsC : 'C' ∉ optVal d.subject := not_mem_optVal hsC
  have hRpP : 'P' ∉ optVal d.phone := not_mem_optVal hpP
  have hRpC : 'C' ∉ optVal d.phone := not_mem_optVal hpC
  have hRcP : 'P' ∉ optVal d.company := not_mem_optVal hcP
  have hRcC : 'C' ∉ optVal d.company := not_mem_optVal hcC
  have hOsP : 'P' ∉ sanitizeString (optVal d.subject) :=
    not_mem_sanitizeString hRsP (by decide) (by decide) (by decide)
  have hOsC : 'C' ∉ sanitizeString (optVal d.subject) :=
    not_mem_sanitizeString hRsC (by decide) (by decide) (by decide)
  have hOpP : 'P' ∉ sanitizeString (optVal d.phone) :=
    not_mem_sanitizeString hRpP (by decide) (by decide) (by decide)
  have hOpC : 'C' ∉ sanitizeString (optVal d.phone) :=
    not_mem_sanitizeString hRpC (by decide) (by decide) (by decide)
  have hOcP : 'P' ∉ sanitizeString (optVal d.company) :=
    not_mem_sanitizeString hRcP (by decide) (by decide) (by decide)
  have hOcC : 'C' ∉ sanitizeString (optVal d.company) :=
    not_mem_sanitizeString hRcC (by decide) (by decide) (by decide)
  refine ⟨?_, ?_⟩
  · intro hphone
    have hp2 : presentStr d.phone = false := by
      simp [hphone, presentStr]
    constructor
    · show ¬ str "Phone:" <:+: emailHtmlOf d nowStr
      unfold emailHtmlOf emailSubjectOf phoneSegHtml companySegHtml
      rcases hsub : presentStr d.subject <;>
        rcases hcom : presentStr d.company <;>
          simp only [hp2, hsub, hcom, Bool.false_eq_true, Bool.true_eq_false,
            if_true, if_false, ite_true, ite_false, eq_self_iff_true,
            List.append_assoc, List.nil_append, List.append_nil, htmlT0,
            htmlT1, htmlT2, htmlT5, htmlT6, htmlT7, htmlT8, phonePreHtml,
            companyPreHtml] <;>
        repeat first
          | apply not_infix_append_of_safe (by decide)
          | apply not_infix_append_of_safe
              (pSafe_of_head_not_mem (c := 'P') (by rfl) hNP)
          | apply not_infix_append_of_safe
              (pSafe_of_head_not_mem (c := 'P') (by rfl) hEP)
          | apply not_infix_append_of_safe
              (pSafe_of_head_not_mem (c := 'P') (by rfl) hMP)
          | apply not_infix_append_of_safe
              (pSafe_of_head_not_mem (c := 'P') (by rfl) hOsP)
          | apply not_infix_append_of_safe
              (pSafe_of_head_not_mem (c := 'P') (by rfl) hOcP)
          | apply not_infix_append_of_safe
              (pSafe_of_head_not_mem (c := 'P') (by rfl) htP)
          | exact not_infix_of_pSafe (by decide)
    · show ¬ str "Phone:" <:+: emailTextOf d nowStr
      unfold emailTextOf
      rcases hsub : presentStr d.subject <;>
        rcases hcom : presentStr d.company <;>
          simp only [hp2, hsub, hcom, Bool.false_eq_true, Bool.true_eq_false,
            if_true, if_false, ite_true, ite_false, eq_self_iff_true,
            List.append_assoc, List.nil_append, List.append_nil] <;>
        repeat first
          | apply not_infix_append_of_safe (by decide)
          | apply not_infix_append_of_safe
              (pSafe_of_head_not_mem (c := 'P') (by rfl) hnP)
          | apply not_infix_append_of_safe
              (pSafe_of_head_not_mem (c := 'P') (by rfl) heP)
          | apply not_infix_append_of_safe
              (pSafe_of_head_not_mem (c := 'P') (by rfl) hmP)
          | apply not_infix_append_of_safe
              (pSafe_of_head_not_mem (c := 'P') (by rfl) hRsP)
          | apply not_infix_append_of_safe
              (pSafe_of_head_not_mem (c := 'P') (by rfl) hRcP)
          | apply not_infix_append_of_safe
              (pSafe_of_head_not_mem (c := 'P') (by rfl) htP)
          | exact fun hh => htP (hh.subset (by decide))
          | exact not_infix_of_pSafe (by decide)
  · intro hcompany
    have hc2 : presentStr d.company = false := by
      simp [hcompany, presentStr]
    constructor
    · show ¬ str "Company:" <:+: emailHtmlOf d nowStr
      unfold emailHtmlOf emailSubjectOf phoneSegHtml companySegHtml
      rcases hsub : presentStr d.subject <;>
        rcases hph : presentStr d.phone <;>
          simp only [hc2, hsub, hph, Bool.false_eq_true, Bool.true_eq_false,
            if_true, if_false, ite_true, ite_false, eq_self_iff_true,
            List.append_assoc, List.nil_append, List.append_nil, htmlT0,
            htmlT1, htmlT2, htmlT5, htmlT6, htmlT7, htmlT8, phonePreHtml,
            companyPreHtml] <;>
        repeat first
          | apply not_infix_append_of_safe (by decide)
          | apply not_infix_append_of_safe
              (pSafe_of_head_not_mem (c := 'C') (by rfl) hNC)
          | apply not_infix_append_of_safe
              (pSafe_of_head_not_mem (c := 'C') (by rfl) hEC)
          | apply not_infix_append_of_safe
              (pSafe_of_head_not_mem (c := 'C') (by rfl) hMC)
          | apply not_infix_append_of_safe
              (pSafe_of_head_not_mem (c := 'C') (by rfl) hOsC)
          | apply not_infix_append_of_safe
              (pSafe_of_head_not_mem (c := 'C') (by rfl) hOpC)
          | apply not_infix_append_of_safe
              (pSafe_of_head_not_mem (c := 'C') (by rfl) htC)
          | exact not_infix_of_pSafe (by decide)
    · show ¬ str "Company:" <:+: emailTextOf d nowStr
      unfold emailTextOf
      rcases hsub : presentStr d.subject <;>
        rcases hph : presentStr d.phone <;>
          simp only [hc2, hsub, hph, Bool.false_eq_true, Bool.true_eq_false,
            if_true, if_false, ite_true, ite_false, eq_self_iff_true,
            List.append_assoc, List.nil_append, List.append_nil] <;>
        repeat first
          | apply not_infix_append_of_safe (by decide)
          | apply not_infix_append_of_safe
              (pSafe_of_head_not_mem (c := 'C') (by rfl) hnC)
          | apply not_infix_append_of_safe
              (pSafe_of_head_not_mem (c := 'C') (by rfl) heC)
          | apply not_infix_append_of_safe
              (pSafe_of_head_not_mem (c := 'C') (by rfl) hmC)
          | apply not_infix_append_of_safe
              (pSafe_of_head_not_mem (c := 'C') (by rfl) hRsC)
          | apply not_infix_append_of_safe
              (pSafe_of_head_not_mem (c := 'C') (by rfl) hRpC)
          | apply not_infix_append_of_safe
              (pSafe_of_head_not_mem (c := 'C') (by rfl) htC)
          | exact fun hh => htC (hh.subset (by decide))
          | exact not_infix_of_pSafe (by decide)
/-- Witness for C8 at a concrete submission with no phone and no company. -/
theorem optional_fields_omitted_witness :
    ¬ str "Phone:" <:+:
      (createEmailContent
        ⟨str "ab", str "a@b.de", none, str "hello there ok", none, none⟩
        (str "2026-10-11 12:00")).html ∧
    ¬ str "Company:" <:+:
      (createEmailContent
        ⟨str "ab", str "a@b.de", none, str "hello there ok", none, none⟩
        (str "2026-10-11 12:00")).text := by
  have h := optional_fields_omitted
    ⟨str "ab", str "a@b.de", none, str "hello there ok", none, none⟩
    (str "2026-10-11 12:00") (by decide) (by decide) (by decide) (by decide)
    (by decide) (by decide) (fun s hs => by cases hs) (fun s hs => by cases hs)
    (fun s hs => by cases hs) (fun s hs => by cases hs)
    (fun s hs => by cases hs) (fun s hs => by cases hs) (by decide) (by decide)
  exact ⟨(h.1 rfl).1, (h.2 rfl).2⟩

/-- C9: rendering is deterministic — the renderer is a pure function of
the submission and the clock reading, so two invocations on equal inputs
produce identical subject, HTML and text strings. -/
theorem createEmailContent_deterministic (d1 d2 : ContactFormData)
    (ns1 ns2 : Str) (hd : d1 = d2) (hn : ns1 = ns2) :
    (createEmailContent d1 ns1).subject = (createEmailContent d2 ns2).subject ∧
    (createEmailContent d1 ns1).html = (createEmailContent d2 ns2).html ∧
    (createEmailContent d1 ns1).text = (createEmailContent d2 ns2).text := by
  subst hd
  subst hn
  exact ⟨rfl, rfl, rfl⟩

/-- Witness for C9 at a concrete submission and timestamp. -/
theorem createEmailContent_deterministic_witness :
    (createEmailContent
      ⟨str "ab", str "a@b.de", none, str "hello there ok", none, none⟩
      (str "t")).subject =
    (createEmailContent
      ⟨str "ab", str "a@b.de", none, str "hello there ok", none, none⟩
      (str "t")).subject :=
  (createEmailContent_deterministic
    ⟨str "ab", str "a@b.de", none, str "hello there ok", none, none⟩
    ⟨str "ab", str "a@b.de", none, str "hello there ok", none, none⟩
    (str "t") (str "t") rfl rfl).1
